import Mathlib

/-!
Verification of the Arogya-Swarm agent orchestration layer
(`src/backend/agents/orchestrator.py`), shallowly embedded in Lean 4.

Python dictionaries with string keys are modelled as association lists over a
JSON-like `Value` type; Python exceptions are modelled with `Except String`
(the carried string is `str(e)`); each agent instance is a record of the
async operations the orchestrator invokes on it.  Workflow execution also
returns the list of agent operations invoked (the observable calls) and the
resulting orchestrator state.
-/

/-- JSON-like structured values exchanged between the orchestrator and agents. -/
inductive Value where
  | vNull : Value
  | vStr : String → Value
  | vInt : Int → Value
  | vList : List Value → Value
  | vObj : List (String × Value) → Value
deriving Repr

/-- Capability tags, from the `AgentType` enum in orchestrator.py. -/
inductive AgentType where
  | SENTINEL | LOGISTICS | TRIAGE | PRIVACY | NUTRITION
  | TELEMEDICINE | COMMUNICATION | IMAGE | ASHA
deriving Repr, DecidableEq

/-- Dictionary lookup (first occurrence), matching Python `d[k]` / `k in d`. -/
def lookupK {α β : Type} [DecidableEq α] : List (α × β) → α → Option β
  | [], _ => none
  | (k', v) :: rest, k => if k' = k then some v else lookupK rest k

/-- Dictionary update `d[k] = v`: replaces the first binding of `k`, or appends
a new binding at the end, as Python dict assignment behaves with respect to
insertion order. -/
def updK {α β : Type} [DecidableEq α] : List (α × β) → α → β → List (α × β)
  | [], k, v => [(k, v)]
  | (k', v') :: rest, k, v =>
      if k' = k then (k, v) :: rest else (k', v') :: updK rest k v

/-- Python `value == "s"` for a string literal: true only for an equal string
(comparison of a non-string against a string is `False`, never an error). -/
def Value.isStr : Value → String → Bool
  | .vStr t, s => t = s
  | _, _ => false

/-- Python `d.get(k, default)`: raises `AttributeError` when the receiver is
not a dict (modelled for object receivers; the orchestrator only applies it
to dict literals it built or to agent results / caller payloads). -/
def pyGet (v : Value) (k : String) (d : Value) : Except String Value :=
  match v with
  | .vObj kvs => .ok ((lookupK kvs k).getD d)
  | _ => .error "AttributeError: object has no attribute get"

/-- Python subscription `d[k]`: `KeyError` when absent, `TypeError` when the
receiver is not a dict. -/
def pyIndex (v : Value) (k : String) : Except String Value :=
  match v with
  | .vObj kvs =>
      match lookupK kvs k with
      | some x => .ok x
      | none => .error ("KeyError: " ++ k)
  | _ => .error "TypeError: object is not subscriptable"

/-- Python `a > b` on orchestrator guard values: defined for two ints,
`TypeError` otherwise (as in Python 3 for mixed-type order comparison). -/
def pyGt (a b : Value) : Except String Bool :=
  match a, b with
  | .vInt x, .vInt y => .ok (decide (x > y))
  | _, _ => .error "TypeError: unorderable types"

/-- An agent instance: the async operations the orchestrator may invoke.
Each operation may raise (`.error msg`, the Python exception's `str`). -/
structure AgentInstance where
  analyze : Value → Except String Value
  send_alert : Value → Value → Except String Value
  predict_surge : Value → Except String Value
  prepare_supplies : Value → Except String Value
  generate_plan : Value → Except String Value
  create_booking : Value → Except String Value

/-- One observable invocation of a registered agent's operation. -/
structure CallEvent where
  agent : AgentType
  method : String
deriving Repr, DecidableEq

/-- The orchestrator's state: `self.agents` and `self.agent_states`. -/
structure AgentOrchestrator where
  agents : List (AgentType × AgentInstance)
  agent_states : List (AgentType × Value)

/-- The orchestrator constructed by `__init__`: both dicts empty. -/
def emptyOrchestrator : AgentOrchestrator := { agents := [], agent_states := [] }

/-- The status record `register_agent` installs for a freshly registered
agent: `{'status': 'idle', 'last_action': None, 'last_result': None}`. -/
def initial_state : Value :=
  .vObj [("status", .vStr "idle"), ("last_action", .vNull), ("last_result", .vNull)]

/-- `AgentOrchestrator.register_agent`: stores the handle and resets the
status record to idle.  Total — no error conditions. -/
def register_agent (o : AgentOrchestrator) (agent_type : AgentType)
    (agent_instance : AgentInstance) : AgentOrchestrator :=
  { agents := updK o.agents agent_type agent_instance,
    agent_states := updK o.agent_states agent_type initial_state }

/-- `AgentOrchestrator.get_agent_status`. -/
def get_agent_status (o : AgentOrchestrator) (agent_type : AgentType) : Value :=
  (lookupK o.agent_states agent_type).getD (.vObj [("status", .vStr "not_registered")])

/-- A `{'agent': …, 'action': …, 'result': …}` step entry. -/
def stepEntry (agent action : String) (result : Value) : Value :=
  .vObj [("agent", .vStr agent), ("action", .vStr action), ("result", result)]

/-- The `{'status': 'skipped', 'reason': 'agent_not_registered'}` marker. -/
def skippedResult : Value :=
  .vObj [("status", .vStr "skipped"), ("reason", .vStr "agent_not_registered")]

/-- `results['steps'].append(entry)`: the workflows initialize `'steps'` to a
list before any append, so the binding is always present and a list. -/
def appendStep (results : List (String × Value)) (entry : Value) :
    List (String × Value) :=
  match lookupK results "steps" with
  | some (.vList l) => updK results "steps" (.vList (l ++ [entry]))
  | _ => updK results "steps" (.vList [entry])

example : updK ([] : List (String × Value)) "a" .vNull = [("a", .vNull)] := rfl
example : pyGt (.vInt 71) (.vInt 70) = .ok true := rfl
example : Value.isStr (.vInt 3) "high" = false := rfl

/-- Step 2 of `_triage_workflow`: the alert guarded by
`results.get('triage', {}).get('severity') in ['high', 'critical']`.
Returns the updated `results` dict (or a raised exception) together with the
agent operations invoked. -/
def triage_step2 (o : AgentOrchestrator) (data : Value)
    (results : List (String × Value)) :
    Except String (List (String × Value)) × List CallEvent :=
  match pyGet ((lookupK results "triage").getD (.vObj [])) "severity" .vNull with
  | .error e => (.error e, [])
  | .ok sev =>
    if sev.isStr "high" || sev.isStr "critical" then
      match lookupK o.agents AgentType.COMMUNICATION with
      | some comm_agent =>
        match pyGet data "patient_id" .vNull with
        | .error e => (.error e, [])
        | .ok patient_id =>
          match pyIndex (.vObj results) "triage" with
          | .error e => (.error e, [])
          | .ok tri =>
            match pyIndex tri "severity" with
            | .error e => (.error e, [])
            | .ok sev' =>
              match comm_agent.send_alert patient_id sev' with
              | .error e => (.error e, [⟨AgentType.COMMUNICATION, "send_alert"⟩])
              | .ok alert_result =>
                  (.ok (appendStep results
                          (stepEntry "communication" "send_alert" alert_result)),
                   [⟨AgentType.COMMUNICATION, "send_alert"⟩])
      | none =>
          (.ok (appendStep results (stepEntry "communication" "send_alert" skippedResult)),
           [])
    else (.ok results, [])

/-- `AgentOrchestrator._triage_workflow`. -/
def triage_workflow (o : AgentOrchestrator) (data : Value) :
    Except String Value × List CallEvent :=
  let results : List (String × Value) :=
    [("workflow", .vStr "patient_triage"), ("steps", .vList [])]
  match lookupK o.agents AgentType.TRIAGE with
  | some triage_agent =>
    match triage_agent.analyze data with
    | .error e => (.error e, [⟨AgentType.TRIAGE, "analyze"⟩])
    | .ok triage_result =>
      let results := appendStep results (stepEntry "triage" "symptom_analysis" triage_result)
      let results := updK results "triage" triage_result
      let p := triage_step2 o data results
      (p.1.map Value.vObj, ⟨AgentType.TRIAGE, "analyze"⟩ :: p.2)
  | none =>
      let p := triage_step2 o data results
      (p.1.map Value.vObj, p.2)

/-- Step 2 of `_surge_workflow`: logistics guarded by
`results.get('prediction', {}).get('likelihood', 0) > 70`. -/
def surge_step2 (o : AgentOrchestrator)
    (results : List (String × Value)) :
    Except String (List (String × Value)) × List CallEvent :=
  match pyGet ((lookupK results "prediction").getD (.vObj [])) "likelihood" (.vInt 0) with
  | .error e => (.error e, [])
  | .ok likelihood =>
    match pyGt likelihood (.vInt 70) with
    | .error e => (.error e, [])
    | .ok b =>
      if b then
        match lookupK o.agents AgentType.LOGISTICS with
        | some logistics_agent =>
          match pyIndex (.vObj results) "prediction" with
          | .error e => (.error e, [])
          | .ok pred =>
            match pyGet pred "predicted_cases" (.vInt 0) with
            | .error e => (.error e, [])
            | .ok predicted_cases =>
              match logistics_agent.prepare_supplies predicted_cases with
              | .error e => (.error e, [⟨AgentType.LOGISTICS, "prepare_supplies"⟩])
              | .ok logistics_result =>
                  (.ok (appendStep results
                          (stepEntry "logistics" "prepare_supplies" logistics_result)),
                   [⟨AgentType.LOGISTICS, "prepare_supplies"⟩])
        | none => (.ok results, [])
      else (.ok results, [])

/-- `AgentOrchestrator._surge_workflow`. -/
def surge_workflow (o : AgentOrchestrator) (data : Value) :
    Except String Value × List CallEvent :=
  let results : List (String × Value) :=
    [("workflow", .vStr "surge_prediction"), ("steps", .vList [])]
  match lookupK o.agents AgentType.SENTINEL with
  | some sentinel_agent =>
    match sentinel_agent.predict_surge data with
    | .error e => (.error e, [⟨AgentType.SENTINEL, "predict_surge"⟩])
    | .ok prediction =>
      let results := appendStep results (stepEntry "sentinel" "predict_surge" prediction)
      let results := updK results "prediction" prediction
      let p := surge_step2 o results
      (p.1.map Value.vObj, ⟨AgentType.SENTINEL, "predict_surge"⟩ :: p.2)
  | none =>
      let p := surge_step2 o results
      (p.1.map Value.vObj, p.2)

/-- `AgentOrchestrator._nutrition_workflow`. -/
def nutrition_workflow (o : AgentOrchestrator) (data : Value) :
    Except String Value × List CallEvent :=
  let results : List (String × Value) :=
    [("workflow", .vStr "nutrition_plan"), ("steps", .vList [])]
  match lookupK o.agents AgentType.NUTRITION with
  | some nutrition_agent =>
    match nutrition_agent.generate_plan data with
    | .error e => (.error e, [⟨AgentType.NUTRITION, "generate_plan"⟩])
    | .ok meal_plan =>
      let results := appendStep results (stepEntry "nutrition" "generate_meal_plan" meal_plan)
      let results := updK results "meal_plan" meal_plan
      (.ok (.vObj results), [⟨AgentType.NUTRITION, "generate_plan"⟩])
  | none => (.ok (.vObj results), [])

/-- `AgentOrchestrator._telemedicine_workflow`. -/
def telemedicine_workflow (o : AgentOrchestrator) (data : Value) :
    Except String Value × List CallEvent :=
  let results : List (String × Value) :=
    [("workflow", .vStr "telemedicine_booking"), ("steps", .vList [])]
  match lookupK o.agents AgentType.TELEMEDICINE with
  | some tele_agent =>
    match tele_agent.create_booking data with
    | .error e => (.error e, [⟨AgentType.TELEMEDICINE, "create_booking"⟩])
    | .ok booking =>
      let results := appendStep results (stepEntry "telemedicine" "create_booking" booking)
      let results := updK results "booking" booking
      (.ok (.vObj results), [⟨AgentType.TELEMEDICINE, "create_booking"⟩])
  | none => (.ok (.vObj results), [])

/-- The dispatch inside `execute_workflow`'s `try` block: route the workflow
name to the workflow method, or build the unknown-workflow error dict. -/
def dispatch (o : AgentOrchestrator) (workflow_type : String) (input_data : Value) :
    Except String Value × List CallEvent :=
  if workflow_type = "patient_triage" then triage_workflow o input_data
  else if workflow_type = "surge_prediction" then surge_workflow o input_data
  else if workflow_type = "nutrition_plan" then nutrition_workflow o input_data
  else if workflow_type = "telemedicine_booking" then telemedicine_workflow o input_data
  else (.ok (.vObj [("error", .vStr ("Unknown workflow: " ++ workflow_type))]), [])

/-- `AgentOrchestrator.execute_workflow`: the `except Exception` clause turns
any raised exception into `{'error': str(e)}`.  The returned triple is the
result dict, the agent operations invoked, and the orchestrator state after
the call — the method body assigns to neither `self.agents` nor
`self.agent_states`, so the state is returned unchanged. -/
def execute_workflow (o : AgentOrchestrator) (workflow_type : String)
    (input_data : Value) : Value × List CallEvent × AgentOrchestrator :=
  match dispatch o workflow_type input_data with
  | (.ok v, tr) => (v, tr, o)
  | (.error e, tr) => (.vObj [("error", .vStr e)], tr, o)

/-! ## Basic dictionary lemmas -/

/-- Whether a structured value is a dict containing key `k`. -/
def hasKeyB (v : Value) (k : String) : Bool :=
  match v with
  | .vObj kvs => (lookupK kvs k).isSome
  | _ => false

/-- Number of bindings of a key in an association list. -/
def keyCount {α β : Type} [DecidableEq α] (l : List (α × β)) (k : α) : Nat :=
  l.countP (fun p => p.1 = k)

theorem lookupK_updK {α β : Type} [DecidableEq α] (l : List (α × β)) (k k' : α) (v : β) :
    lookupK (updK l k v) k' = if k' = k then some v else lookupK l k' := by
  induction l with
  | nil =>
      by_cases h : k' = k
      · subst h; simp [updK, lookupK]
      · simp [updK, lookupK, h, Ne.symm h]
  | cons hd tl ih =>
      obtain ⟨k₀, v₀⟩ := hd
      by_cases h0 : k₀ = k
      · subst h0
        by_cases h : k' = k₀
        · subst h; simp [updK, lookupK]
        · simp [updK, lookupK, h, Ne.symm h]
      · by_cases h : k' = k
        · subst h
          simp [updK, lookupK, h0, ih]
        · simp [updK, lookupK, h0, h, ih]

theorem keyCount_updK {α β : Type} [DecidableEq α] (l : List (α × β)) (k : α) (v : β) :
    keyCount (updK l k v) k = max (keyCount l k) 1 := by
  induction l with
  | nil => simp [updK, keyCount]
  | cons hd tl ih =>
      obtain ⟨k₀, v₀⟩ := hd
      by_cases h0 : k₀ = k
      · subst h0
        simp [updK, keyCount, List.countP_cons]
      · simp only [keyCount] at ih
        simp [updK, keyCount, List.countP_cons, h0, ih]

theorem lookupK_appendStep (results : List (String × Value)) (x : Value) (k : String)
    (h : k ≠ "steps") : lookupK (appendStep results x) k = lookupK results k := by
  unfold appendStep
  rcases hs : lookupK results "steps" with _ | v
  · simp [lookupK_updK, h]
  · cases v <;> simp [lookupK_updK, h]

theorem lookupK_appendStep_steps (results : List (String × Value)) (x : Value) :
    (lookupK (appendStep results x) "steps").isSome = true := by
  unfold appendStep
  rcases hs : lookupK results "steps" with _ | v
  · simp [lookupK_updK]
  · cases v <;> simp [lookupK_updK]

/-! ## Result-shape machinery (for the always-well-formed guarantee) -/

/-- The failure shape `{'error': <string>}` returned by `execute_workflow`'s
exception handler and by the unknown-workflow branch. -/
def errorShape (v : Value) : Prop := ∃ s, v = .vObj [("error", .vStr s)]

/-- The success shape: a dict with `'workflow'` and `'steps'` keys and no
top-level `'error'` key. -/
def successShape (v : Value) : Prop :=
  hasKeyB v "workflow" = true ∧ hasKeyB v "steps" = true ∧ hasKeyB v "error" = false

/-- The keys invariant maintained on the `results` accumulator inside every
workflow method. -/
def goodKeys (results : List (String × Value)) : Prop :=
  (lookupK results "workflow").isSome = true ∧
  (lookupK results "steps").isSome = true ∧
  lookupK results "error" = none

theorem goodKeys_appendStep {results : List (String × Value)} (x : Value)
    (h : goodKeys results) : goodKeys (appendStep results x) := by
  obtain ⟨h1, h2, h3⟩ := h
  refine ⟨?_, lookupK_appendStep_steps results x, ?_⟩
  · rw [lookupK_appendStep results x "workflow" (by decide)]; exact h1
  · rw [lookupK_appendStep results x "error" (by decide)]; exact h3

theorem goodKeys_updK {results : List (String × Value)} (k : String) (v : Value)
    (hk : k ≠ "error") (h : goodKeys results) : goodKeys (updK results k v) := by
  obtain ⟨h1, h2, h3⟩ := h
  refine ⟨?_, ?_, ?_⟩
  · rw [lookupK_updK]
    by_cases hw : "workflow" = k <;> simp [hw, h1]
  · rw [lookupK_updK]
    by_cases hs : "steps" = k <;> simp [hs, h2]
  · rw [lookupK_updK, if_neg (fun h' => hk h'.symm)]
    exact h3

theorem successShape_of_goodKeys {results : List (String × Value)}
    (h : goodKeys results) : successShape (.vObj results) := by
  obtain ⟨h1, h2, h3⟩ := h
  exact ⟨by simpa [hasKeyB] using h1, by simpa [hasKeyB] using h2, by simp [hasKeyB, h3]⟩

theorem triage_step2_range (o : AgentOrchestrator) (d : Value)
    (results : List (String × Value)) :
    (∃ e, (triage_step2 o d results).1 = .error e) ∨
    (triage_step2 o d results).1 = .ok results ∨
    (∃ x, (triage_step2 o d results).1 = .ok (appendStep results x)) := by
  unfold triage_step2
  repeat' split
  all_goals first
    | exact .inl ⟨_, rfl⟩
    | exact .inr (.inl rfl)
    | exact .inr (.inr ⟨_, rfl⟩)

theorem surge_step2_range (o : AgentOrchestrator)
    (results : List (String × Value)) :
    (∃ e, (surge_step2 o results).1 = .error e) ∨
    (surge_step2 o results).1 = .ok results ∨
    (∃ x, (surge_step2 o results).1 = .ok (appendStep results x)) := by
  unfold surge_step2
  repeat' split
  all_goals first
    | exact .inl ⟨_, rfl⟩
    | exact .inr (.inl rfl)
    | exact .inr (.inr ⟨_, rfl⟩)

theorem shape_of_range {p : Except String (List (String × Value)) × List CallEvent}
    {results : List (String × Value)}
    (hrange : (∃ e, p.1 = .error e) ∨ p.1 = .ok results ∨
      (∃ x, p.1 = .ok (appendStep results x)))
    (hg : goodKeys results) :
    (∃ e, p.1.map Value.vObj = .error e) ∨
    (∃ v, p.1.map Value.vObj = .ok v ∧ successShape v) := by
  rcases hrange with ⟨e, he⟩ | h | ⟨x, hx⟩
  · exact .inl ⟨e, by simp [he, Except.map]⟩
  · exact .inr ⟨_, by simp [h, Except.map], successShape_of_goodKeys hg⟩
  · exact .inr ⟨_, by simp [hx, Except.map],
      successShape_of_goodKeys (goodKeys_appendStep x hg)⟩

theorem triage_workflow_shape (o : AgentOrchestrator) (d : Value) :
    (∃ e, (triage_workflow o d).1 = .error e) ∨
    (∃ v, (triage_workflow o d).1 = .ok v ∧ successShape v) := by
  have hbase : goodKeys [("workflow", Value.vStr "patient_triage"), ("steps", Value.vList [])] :=
    ⟨rfl, rfl, rfl⟩
  simp only [triage_workflow]
  rcases hT : lookupK o.agents AgentType.TRIAGE with _ | a
  · simp only [hT]
    exact shape_of_range (triage_step2_range o d _) hbase
  · simp only [hT]
    rcases hA : a.analyze d with e | r
    · simp only [hA]
      exact .inl ⟨e, rfl⟩
    · simp only [hA]
      exact shape_of_range (triage_step2_range o d _)
        (goodKeys_updK "triage" r (by decide) (goodKeys_appendStep _ hbase))

theorem surge_workflow_shape (o : AgentOrchestrator) (d : Value) :
    (∃ e, (surge_workflow o d).1 = .error e) ∨
    (∃ v, (surge_workflow o d).1 = .ok v ∧ successShape v) := by
  have hbase : goodKeys [("workflow", Value.vStr "surge_prediction"), ("steps", Value.vList [])] :=
    ⟨rfl, rfl, rfl⟩
  simp only [surge_workflow]
  rcases hS : lookupK o.agents AgentType.SENTINEL with _ | a
  · simp only [hS]
    exact shape_of_range (surge_step2_range o _) hbase
  · simp only [hS]
    rcases hA : a.predict_surge d with e | r
    · simp only [hA]
      exact .inl ⟨e, rfl⟩
    · simp only [hA]
      exact shape_of_range (surge_step2_range o _)
        (goodKeys_updK "prediction" r (by decide) (goodKeys_appendStep _ hbase))

theorem nutrition_workflow_shape (o : AgentOrchestrator) (d : Value) :
    (∃ e, (nutrition_workflow o d).1 = .error e) ∨
    (∃ v, (nutrition_workflow o d).1 = .ok v ∧ successShape v) := by
  have hbase : goodKeys [("workflow", Value.vStr "nutrition_plan"), ("steps", Value.vList [])] :=
    ⟨rfl, rfl, rfl⟩
  simp only [nutrition_workflow]
  rcases hN : lookupK o.agents AgentType.NUTRITION with _ | a
  · simp only [hN]
    exact .inr ⟨_, rfl, successShape_of_goodKeys hbase⟩
  · simp only [hN]
    rcases hA : a.generate_plan d with e | r
    · simp only [hA]
      exact .inl ⟨e, rfl⟩
    · simp only [hA]
      exact .inr ⟨_, rfl, successShape_of_goodKeys
        (goodKeys_updK "meal_plan" r (by decide) (goodKeys_appendStep _ hbase))⟩

theorem telemedicine_workflow_shape (o : AgentOrchestrator) (d : Value) :
    (∃ e, (telemedicine_workflow o d).1 = .error e) ∨
    (∃ v, (telemedicine_workflow o d).1 = .ok v ∧ successShape v) := by
  have hbase : goodKeys [("workflow", Value.vStr "telemedicine_booking"), ("steps", Value.vList [])] :=
    ⟨rfl, rfl, rfl⟩
  simp only [telemedicine_workflow]
  rcases hN : lookupK o.agents AgentType.TELEMEDICINE with _ | a
  · simp only [hN]
    exact .inr ⟨_, rfl, successShape_of_goodKeys hbase⟩
  · simp only [hN]
    rcases hA : a.create_booking d with e | r
    · simp only [hA]
      exact .inl ⟨e, rfl⟩
    · simp only [hA]
      exact .inr ⟨_, rfl, successShape_of_goodKeys
        (goodKeys_updK "booking" r (by decide) (goodKeys_appendStep _ hbase))⟩

theorem execute_workflow_fst (o : AgentOrchestrator) (wt : String) (d : Value) :
    (execute_workflow o wt d).1 =
      match (dispatch o wt d).1 with
      | .ok v => v
      | .error e => .vObj [("error", .vStr e)] := by
  unfold execute_workflow
  rcases dispatch o wt d with ⟨r, tr⟩
  cases r <;> rfl

theorem execute_workflow_trace (o : AgentOrchestrator) (wt : String) (d : Value) :
    (execute_workflow o wt d).2.1 = (dispatch o wt d).2 := by
  unfold execute_workflow
  rcases dispatch o wt d with ⟨r, tr⟩
  cases r <;> rfl

theorem execute_workflow_state (o : AgentOrchestrator) (wt : String) (d : Value) :
    (execute_workflow o wt d).2.2 = o := by
  unfold execute_workflow
  rcases dispatch o wt d with ⟨r, tr⟩
  cases r <;> rfl

theorem dispatch_shape (o : AgentOrchestrator) (wt : String) (d : Value) :
    (∃ e, (dispatch o wt d).1 = .error e) ∨
    (∃ v, (dispatch o wt d).1 = .ok v ∧ (successShape v ∨ errorShape v)) := by
  by_cases h1 : wt = "patient_triage"
  · rcases triage_workflow_shape o d with ⟨e, he⟩ | ⟨v, hv, hs⟩
    · exact .inl ⟨e, by simp [dispatch, h1, he]⟩
    · exact .inr ⟨v, by simp [dispatch, h1, hv], .inl hs⟩
  by_cases h2 : wt = "surge_prediction"
  · rcases surge_workflow_shape o d with ⟨e, he⟩ | ⟨v, hv, hs⟩
    · exact .inl ⟨e, by simp [dispatch, h1, h2, he]⟩
    · exact .inr ⟨v, by simp [dispatch, h1, h2, hv], .inl hs⟩
  by_cases h3 : wt = "nutrition_plan"
  · rcases nutrition_workflow_shape o d with ⟨e, he⟩ | ⟨v, hv, hs⟩
    · exact .inl ⟨e, by simp [dispatch, h1, h2, h3, he]⟩
    · exact .inr ⟨v, by simp [dispatch, h1, h2, h3, hv], .inl hs⟩
  by_cases h4 : wt = "telemedicine_booking"
  · rcases telemedicine_workflow_shape o d with ⟨e, he⟩ | ⟨v, hv, hs⟩
    · exact .inl ⟨e, by simp [dispatch, h1, h2, h3, h4, he]⟩
    · exact .inr ⟨v, by simp [dispatch, h1, h2, h3, h4, hv], .inl hs⟩
  · exact .inr ⟨.vObj [("error", .vStr ("Unknown workflow: " ++ wt))],
      by simp [dispatch, h1, h2, h3, h4], .inr ⟨_, rfl⟩⟩

theorem isStr_eq_false {v : Value} {s : String} (h : v ≠ .vStr s) : v.isStr s = false := by
  cases v <;> try rfl
  case vStr t =>
    simp only [Value.isStr, decide_eq_false_iff_not]
    intro h'
    exact h (by rw [h'])

/-! ## Concrete stub agents used in counterexamples and witnesses -/

/-- A stub agent: every operation succeeds with a fixed value. -/
def okAgent (v : Value) : AgentInstance :=
  { analyze := fun _ => .ok v, send_alert := fun _ _ => .ok (.vStr "sent"),
    predict_surge := fun _ => .ok v, prepare_supplies := fun _ => .ok (.vStr "prepared"),
    generate_plan := fun _ => .ok v, create_booking := fun _ => .ok v }

/-- A stub agent whose every operation raises an exception with message `msg`. -/
def raisingAgent (msg : String) : AgentInstance :=
  { analyze := fun _ => .error msg, send_alert := fun _ _ => .error msg,
    predict_surge := fun _ => .error msg, prepare_supplies := fun _ => .error msg,
    generate_plan := fun _ => .error msg, create_booking := fun _ => .error msg }

/-- An orchestrator with only a triage agent, reporting low severity. -/
def oTriageLow : AgentOrchestrator :=
  register_agent emptyOrchestrator AgentType.TRIAGE
    (okAgent (.vObj [("severity", .vStr "low")]))

/-- An orchestrator whose only agent is a triage agent that raises `boom`. -/
def oRaisingTriage : AgentOrchestrator :=
  register_agent emptyOrchestrator AgentType.TRIAGE (raisingAgent "boom")

/-! ## Claim theorems -/

/-- C8: for every orchestrator state, workflow name and input payload,
`execute_workflow` is total (the `except Exception` handler converts any
exception raised during workflow execution into a result value) and the
returned mapping is either exactly the failure shape `{'error': <string>}`
or a success shape carrying `'workflow'` and `'steps'` keys and no top-level
`'error'` key — the two shapes are never mixed. -/
theorem C8_always_wellformed (o : AgentOrchestrator) (wt : String) (d : Value) :
    errorShape (execute_workflow o wt d).1 ∨ successShape (execute_workflow o wt d).1 := by
  rw [execute_workflow_fst]
  rcases dispatch_shape o wt d with ⟨e, he⟩ | ⟨v, hv, hsv⟩
  · rw [he]
    exact .inl ⟨e, rfl⟩
  · rw [hv]
    rcases hsv with hs | hs
    · exact .inr hs
    · exact .inl hs

/-- C4: for every workflow name outside the four defined ones,
`execute_workflow` returns exactly `{'error': 'Unknown workflow: <name>'}`
(no `'workflow'`, `'steps'` or partial results), invokes zero agent
operations, and leaves the orchestrator state unchanged. -/
theorem C4_unknown_workflow (o : AgentOrchestrator) (wt : String) (d : Value)
    (h1 : wt ≠ "patient_triage") (h2 : wt ≠ "surge_prediction")
    (h3 : wt ≠ "nutrition_plan") (h4 : wt ≠ "telemedicine_booking") :
    execute_workflow o wt d =
      (.vObj [("error", .vStr ("Unknown workflow: " ++ wt))], [], o) := by
  unfold execute_workflow
  simp [dispatch, h1, h2, h3, h4]

/-- Witness for C4 at the concrete unknown workflow name `reboot`. -/
theorem C4_unknown_workflow_witness :
    execute_workflow emptyOrchestrator "reboot" .vNull =
      (.vObj [("error", .vStr "Unknown workflow: reboot")], [], emptyOrchestrator) :=
  C4_unknown_workflow emptyOrchestrator "reboot" .vNull
    (by decide) (by decide) (by decide) (by decide)

/-- C3 (amended): `execute_workflow` never mutates the registry: the
orchestrator state after any workflow execution is identical to the state
before it, so no `idle -> running -> idle/failed` transition is ever recorded
in an agent's status record — the records are written only by
`register_agent` and keep their initial idle value through every invocation. -/
theorem C3_states_never_mutated (o : AgentOrchestrator) (wt : String) (d : Value)
    (t : AgentType) :
    (execute_workflow o wt d).2.2.agent_states = o.agent_states ∧
    get_agent_status (execute_workflow o wt d).2.2 t = get_agent_status o t := by
  rw [execute_workflow_state]
  exact ⟨rfl, rfl⟩

/-- Witness for C3 (amended) at a concrete orchestrator and workflow. -/
theorem C3_states_never_mutated_witness :
    (execute_workflow oTriageLow "patient_triage" (.vObj [])).2.2.agent_states =
      oTriageLow.agent_states ∧
    get_agent_status (execute_workflow oTriageLow "patient_triage" (.vObj [])).2.2
        AgentType.TRIAGE =
      get_agent_status oTriageLow AgentType.TRIAGE :=
  C3_states_never_mutated oTriageLow "patient_triage" (.vObj []) AgentType.TRIAGE

/-- Counterexample to C3 as stated: running `patient_triage` against a
registered triage agent performs an agent invocation, yet afterwards the
agent's status record still equals the pristine registration record
(`status` `idle`, `last_action` and `last_result` `None`) — the invocation
mutated nothing, refuting "mutates the invoked agents' status records on
every invocation". -/
theorem C3_counterexample :
    (execute_workflow oTriageLow "patient_triage" (.vObj [])).2.1 =
      [⟨AgentType.TRIAGE, "analyze"⟩] ∧
    (execute_workflow oTriageLow "patient_triage" (.vObj [])).2.2.agent_states =
      oTriageLow.agent_states ∧
    get_agent_status (execute_workflow oTriageLow "patient_triage" (.vObj [])).2.2
      AgentType.TRIAGE = initial_state :=
  ⟨rfl, rfl, rfl⟩

/-- An orchestrator with a critical-severity triage agent and a raising
communication agent. -/
def oAlertRaising : AgentOrchestrator :=
  register_agent (register_agent emptyOrchestrator AgentType.TRIAGE
      (okAgent (.vObj [("severity", .vStr "critical")])))
    AgentType.COMMUNICATION (raisingAgent "alert-down")

/-- An orchestrator with a likelihood-90 sentinel agent and a raising
logistics agent. -/
def oSupplyRaising : AgentOrchestrator :=
  register_agent (register_agent emptyOrchestrator AgentType.SENTINEL
      (okAgent (.vObj [("likelihood", .vInt 90), ("predicted_cases", .vInt 40)])))
    AgentType.LOGISTICS (raisingAgent "supply-down")

/-- An orchestrator whose only agent is a sentinel agent that raises. -/
def oRaisingSentinel : AgentOrchestrator :=
  register_agent emptyOrchestrator AgentType.SENTINEL (raisingAgent "sentinel-down")

/-- An orchestrator whose only agent is a nutrition agent that raises. -/
def oRaisingNutrition : AgentOrchestrator :=
  register_agent emptyOrchestrator AgentType.NUTRITION (raisingAgent "kitchen-down")

/-- An orchestrator whose only agent is a telemedicine agent that raises. -/
def oRaisingTele : AgentOrchestrator :=
  register_agent emptyOrchestrator AgentType.TELEMEDICINE (raisingAgent "booking-down")

/-- C1 (amended): whenever any agent operation raises during any workflow,
the exception is caught only at the workflow boundary by `execute_workflow`'s
handler, not at the step boundary: the call returns the bare
`{'error': str(e)}` object — carrying neither `'workflow'` nor `'steps'`, so
every step entry accumulated so far is discarded — and no subsequent step
runs.  The first conjunct states this for every workflow name and every
raising execution; the remaining conjuncts instantiate it for each raising
step of the four workflows, including the two mid-workflow cases
(`send_alert` raising after a successful triage step, `prepare_supplies`
raising after a successful prediction step) in which a step entry had
already been accumulated and the trace shows the raising call was the last. -/
theorem C1_exception_workflow_boundary :
    (∀ (o : AgentOrchestrator) (wt : String) (d : Value) (e : String)
       (tr : List CallEvent),
      dispatch o wt d = (.error e, tr) →
      execute_workflow o wt d = (.vObj [("error", .vStr e)], tr, o) ∧
      hasKeyB (execute_workflow o wt d).1 "workflow" = false ∧
      hasKeyB (execute_workflow o wt d).1 "steps" = false) ∧
    (∀ (o : AgentOrchestrator) (d : Value) (a : AgentInstance) (e : String),
      lookupK o.agents AgentType.TRIAGE = some a →
      a.analyze d = .error e →
      execute_workflow o "patient_triage" d =
        (.vObj [("error", .vStr e)], [⟨AgentType.TRIAGE, "analyze"⟩], o)) ∧
    (∀ (o : AgentOrchestrator) (d : Value) (a c : AgentInstance)
       (kvs dkvs : List (String × Value)) (sev : Value) (e : String),
      lookupK o.agents AgentType.TRIAGE = some a →
      a.analyze d = .ok (.vObj kvs) →
      lookupK kvs "severity" = some sev →
      (sev = .vStr "high" ∨ sev = .vStr "critical") →
      lookupK o.agents AgentType.COMMUNICATION = some c →
      d = .vObj dkvs →
      c.send_alert ((lookupK dkvs "patient_id").getD .vNull) sev = .error e →
      execute_workflow o "patient_triage" d =
        (.vObj [("error", .vStr e)],
         [⟨AgentType.TRIAGE, "analyze"⟩, ⟨AgentType.COMMUNICATION, "send_alert"⟩], o)) ∧
    (∀ (o : AgentOrchestrator) (d : Value) (s : AgentInstance) (e : String),
      lookupK o.agents AgentType.SENTINEL = some s →
      s.predict_surge d = .error e →
      execute_workflow o "surge_prediction" d =
        (.vObj [("error", .vStr e)], [⟨AgentType.SENTINEL, "predict_surge"⟩], o)) ∧
    (∀ (o : AgentOrchestrator) (d : Value) (s lg : AgentInstance)
       (pk : List (String × Value)) (n : Int) (e : String),
      lookupK o.agents AgentType.SENTINEL = some s →
      lookupK o.agents AgentType.LOGISTICS = some lg →
      s.predict_surge d = .ok (.vObj pk) →
      lookupK pk "likelihood" = some (.vInt n) →
      (70 : Int) < n →
      lg.prepare_supplies ((lookupK pk "predicted_cases").getD (.vInt 0)) = .error e →
      execute_workflow o "surge_prediction" d =
        (.vObj [("error", .vStr e)],
         [⟨AgentType.SENTINEL, "predict_surge"⟩, ⟨AgentType.LOGISTICS, "prepare_supplies"⟩],
         o)) ∧
    (∀ (o : AgentOrchestrator) (d : Value) (a : AgentInstance) (e : String),
      lookupK o.agents AgentType.NUTRITION = some a →
      a.generate_plan d = .error e →
      execute_workflow o "nutrition_plan" d =
        (.vObj [("error", .vStr e)], [⟨AgentType.NUTRITION, "generate_plan"⟩], o)) ∧
    (∀ (o : AgentOrchestrator) (d : Value) (a : AgentInstance) (e : String),
      lookupK o.agents AgentType.TELEMEDICINE = some a →
      a.create_booking d = .error e →
      execute_workflow o "telemedicine_booking" d =
        (.vObj [("error", .vStr e)], [⟨AgentType.TELEMEDICINE, "create_booking"⟩], o)) := by
  refine ⟨?_, ?_, ?_, ?_, ?_, ?_, ?_⟩
  · intro o wt d e tr h
    have h1 : execute_workflow o wt d = (.vObj [("error", .vStr e)], tr, o) := by
      unfold execute_workflow
      rw [h]
    refine ⟨h1, ?_, ?_⟩ <;> rw [h1] <;> rfl
  · intro o d a e hT hA
    unfold execute_workflow
    simp [dispatch, triage_workflow, hT, hA]
  · intro o d a c kvs dkvs sev e hT hA hS hsev hC hD hAl
    subst hD
    unfold execute_workflow
    rcases hsev with h | h <;> subst h <;>
      simp [dispatch, triage_workflow, triage_step2, hT, hA, hC, hS, hAl,
            appendStep, updK, lookupK, pyGet, pyIndex, Value.isStr, Except.map]
  · intro o d s e hSen hP
    unfold execute_workflow
    simp [dispatch, surge_workflow, hSen, hP]
  · intro o d s lg pk n e hSen hLog hP hL hn hPr
    unfold execute_workflow
    simp [dispatch, surge_workflow, surge_step2, hSen, hLog, hP, hL, hPr, hn,
          appendStep, updK, lookupK, pyGet, pyIndex, pyGt, Except.map]
  · intro o d a e hN hG
    unfold execute_workflow
    simp [dispatch, nutrition_workflow, hN, hG]
  · intro o d a e hTel hB
    unfold execute_workflow
    simp [dispatch, telemedicine_workflow, hTel, hB]

/-- Witness for C1 (amended): every conjunct applied at a concrete raising
agent — first step of each of the four workflows, plus the two mid-workflow
raising steps (`send_alert` after a successful critical triage step,
`prepare_supplies` after a successful likelihood-90 prediction step). -/
theorem C1_exception_workflow_boundary_witness :
    (execute_workflow oRaisingTriage "patient_triage" (.vObj []) =
       (.vObj [("error", .vStr "boom")], [⟨AgentType.TRIAGE, "analyze"⟩], oRaisingTriage) ∧
     hasKeyB (execute_workflow oRaisingTriage "patient_triage" (.vObj [])).1 "workflow" = false ∧
     hasKeyB (execute_workflow oRaisingTriage "patient_triage" (.vObj [])).1 "steps" = false) ∧
    execute_workflow oRaisingTriage "patient_triage" (.vObj []) =
      (.vObj [("error", .vStr "boom")], [⟨AgentType.TRIAGE, "analyze"⟩], oRaisingTriage) ∧
    execute_workflow oAlertRaising "patient_triage" (.vObj [("patient_id", .vInt 7)]) =
      (.vObj [("error", .vStr "alert-down")],
       [⟨AgentType.TRIAGE, "analyze"⟩, ⟨AgentType.COMMUNICATION, "send_alert"⟩],
       oAlertRaising) ∧
    execute_workflow oRaisingSentinel "surge_prediction" (.vObj []) =
      (.vObj [("error", .vStr "sentinel-down")],
       [⟨AgentType.SENTINEL, "predict_surge"⟩], oRaisingSentinel) ∧
    execute_workflow oSupplyRaising "surge_prediction" (.vObj []) =
      (.vObj [("error", .vStr "supply-down")],
       [⟨AgentType.SENTINEL, "predict_surge"⟩, ⟨AgentType.LOGISTICS, "prepare_supplies"⟩],
       oSupplyRaising) ∧
    execute_workflow oRaisingNutrition "nutrition_plan" (.vObj []) =
      (.vObj [("error", .vStr "kitchen-down")],
       [⟨AgentType.NUTRITION, "generate_plan"⟩], oRaisingNutrition) ∧
    execute_workflow oRaisingTele "telemedicine_booking" (.vObj []) =
      (.vObj [("error", .vStr "booking-down")],
       [⟨AgentType.TELEMEDICINE, "create_booking"⟩], oRaisingTele) :=
  ⟨C1_exception_workflow_boundary.1 oRaisingTriage "patient_triage" (.vObj [])
     "boom" [⟨AgentType.TRIAGE, "analyze"⟩] rfl,
   C1_exception_workflow_boundary.2.1 oRaisingTriage (.vObj [])
     (raisingAgent "boom") "boom" rfl rfl,
   C1_exception_workflow_boundary.2.2.1 oAlertRaising (.vObj [("patient_id", .vInt 7)])
     (okAgent (.vObj [("severity", .vStr "critical")])) (raisingAgent "alert-down")
     [("severity", .vStr "critical")] [("patient_id", .vInt 7)]
     (.vStr "critical") "alert-down"
     rfl rfl rfl (.inr rfl) rfl rfl rfl,
   C1_exception_workflow_boundary.2.2.2.1 oRaisingSentinel (.vObj [])
     (raisingAgent "sentinel-down") "sentinel-down" rfl rfl,
   C1_exception_workflow_boundary.2.2.2.2.1 oSupplyRaising (.vObj [])
     (okAgent (.vObj [("likelihood", .vInt 90), ("predicted_cases", .vInt 40)]))
     (raisingAgent "supply-down")
     [("likelihood", .vInt 90), ("predicted_cases", .vInt 40)] 90 "supply-down"
     rfl rfl rfl rfl (by decide) rfl,
   C1_exception_workflow_boundary.2.2.2.2.2.1 oRaisingNutrition (.vObj [])
     (raisingAgent "kitchen-down") "kitchen-down" rfl rfl,
   C1_exception_workflow_boundary.2.2.2.2.2.2 oRaisingTele (.vObj [])
     (raisingAgent "booking-down") "booking-down" rfl rfl⟩

/-- Counterexample to C1 as stated: with a triage agent whose operation
raises `boom`, `execute_workflow` returns the bare error object — it carries
neither a `'workflow'` nor a `'steps'` key, so the exception was not recorded
as a step entry and execution did not continue to a completed-shaped result. -/
theorem C1_counterexample :
    (execute_workflow oRaisingTriage "patient_triage" (.vObj [])).1 =
      .vObj [("error", .vStr "boom")] ∧
    hasKeyB (execute_workflow oRaisingTriage "patient_triage" (.vObj [])).1 "workflow" = false ∧
    hasKeyB (execute_workflow oRaisingTriage "patient_triage" (.vObj [])).1 "steps" = false :=
  ⟨rfl, rfl, rfl⟩

/-- C2 (amended): only the guarded communication-alert step of
`patient_triage` records an explicit `{'status': 'skipped', 'reason':
'agent_not_registered'}` entry when its capability is unregistered, and it
does so only when the severity guard passed — when the guard fails, no
marker appears even with the communication capability unregistered; a step
whose own required capability is unregistered — in particular the first step
of each of the four workflows (triage, sentinel, nutrition, telemedicine) —
is silently omitted: no entry of any kind is appended for it and no
exception is raised. -/
theorem C2_skip_marker_only_for_alert :
    (∀ (o : AgentOrchestrator) (d : Value),
      lookupK o.agents AgentType.TRIAGE = none →
      (execute_workflow o "patient_triage" d).1 =
        .vObj [("workflow", .vStr "patient_triage"), ("steps", .vList [])]) ∧
    (∀ (o : AgentOrchestrator) (d : Value),
      lookupK o.agents AgentType.SENTINEL = none →
      (execute_workflow o "surge_prediction" d).1 =
        .vObj [("workflow", .vStr "surge_prediction"), ("steps", .vList [])]) ∧
    (∀ (o : AgentOrchestrator) (d : Value),
      lookupK o.agents AgentType.NUTRITION = none →
      (execute_workflow o "nutrition_plan" d).1 =
        .vObj [("workflow", .vStr "nutrition_plan"), ("steps", .vList [])]) ∧
    (∀ (o : AgentOrchestrator) (d : Value),
      lookupK o.agents AgentType.TELEMEDICINE = none →
      (execute_workflow o "telemedicine_booking" d).1 =
        .vObj [("workflow", .vStr "telemedicine_booking"), ("steps", .vList [])]) ∧
    (∀ (o : AgentOrchestrator) (d : Value) (a : AgentInstance)
       (kvs : List (String × Value)) (sev : Value),
      lookupK o.agents AgentType.TRIAGE = some a →
      a.analyze d = .ok (.vObj kvs) →
      lookupK kvs "severity" = some sev →
      (sev = .vStr "high" ∨ sev = .vStr "critical") →
      lookupK o.agents AgentType.COMMUNICATION = none →
      (execute_workflow o "patient_triage" d).1 =
        .vObj [("workflow", .vStr "patient_triage"),
               ("steps", .vList [stepEntry "triage" "symptom_analysis" (.vObj kvs),
                                 stepEntry "communication" "send_alert" skippedResult]),
               ("triage", .vObj kvs)]) ∧
    (∀ (o : AgentOrchestrator) (d : Value) (a : AgentInstance)
       (kvs : List (String × Value)) (sev : Value),
      lookupK o.agents AgentType.TRIAGE = some a →
      a.analyze d = .ok (.vObj kvs) →
      lookupK kvs "severity" = some sev →
      sev ≠ .vStr "high" → sev ≠ .vStr "critical" →
      lookupK o.agents AgentType.COMMUNICATION = none →
      (execute_workflow o "patient_triage" d).1 =
        .vObj [("workflow", .vStr "patient_triage"),
               ("steps", .vList [stepEntry "triage" "symptom_analysis" (.vObj kvs)]),
               ("triage", .vObj kvs)]) := by
  refine ⟨?_, ?_, ?_, ?_, ?_, ?_⟩
  · intro o d hT
    unfold execute_workflow
    simp [dispatch, triage_workflow, triage_step2, hT, pyGet, lookupK, Value.isStr,
          Except.map]
  · intro o d hSen
    unfold execute_workflow
    simp [dispatch, surge_workflow, surge_step2, hSen, lookupK, pyGet, pyGt, Except.map]
  · intro o d hN
    unfold execute_workflow
    simp [dispatch, nutrition_workflow, hN]
  · intro o d hTel
    unfold execute_workflow
    simp [dispatch, telemedicine_workflow, hTel]
  · intro o d a kvs sev hT hA hS hsev hC
    unfold execute_workflow
    rcases hsev with h | h <;> subst h <;>
      simp [dispatch, triage_workflow, triage_step2, hT, hA, hC, hS,
            appendStep, updK, lookupK, pyGet, Value.isStr, Except.map]
  · intro o d a kvs sev hT hA hS hne1 hne2 hC
    unfold execute_workflow
    simp [dispatch, triage_workflow, triage_step2, hT, hA, hS,
          isStr_eq_false hne1, isStr_eq_false hne2,
          appendStep, updK, lookupK, pyGet, Except.map]

/-- An orchestrator with a triage agent reporting critical severity and no
communication agent. -/
def oTriageCritical : AgentOrchestrator :=
  register_agent emptyOrchestrator AgentType.TRIAGE
    (okAgent (.vObj [("severity", .vStr "critical")]))

/-- Witness for C2 (amended): the four silently-omitted first steps against
the empty orchestrator, the skipped marker at critical severity with the
communication capability unregistered, and the no-marker case at low
severity with the communication capability likewise unregistered. -/
theorem C2_skip_marker_only_for_alert_witness :
    (execute_workflow emptyOrchestrator "patient_triage" (.vObj [])).1 =
      .vObj [("workflow", .vStr "patient_triage"), ("steps", .vList [])] ∧
    (execute_workflow emptyOrchestrator "surge_prediction" (.vObj [])).1 =
      .vObj [("workflow", .vStr "surge_prediction"), ("steps", .vList [])] ∧
    (execute_workflow emptyOrchestrator "nutrition_plan" (.vObj [])).1 =
      .vObj [("workflow", .vStr "nutrition_plan"), ("steps", .vList [])] ∧
    (execute_workflow emptyOrchestrator "telemedicine_booking" (.vObj [])).1 =
      .vObj [("workflow", .vStr "telemedicine_booking"), ("steps", .vList [])] ∧
    (execute_workflow oTriageCritical "patient_triage" (.vObj [])).1 =
      .vObj [("workflow", .vStr "patient_triage"),
             ("steps", .vList
                [stepEntry "triage" "symptom_analysis" (.vObj [("severity", .vStr "critical")]),
                 stepEntry "communication" "send_alert" skippedResult]),
             ("triage", .vObj [("severity", .vStr "critical")])] ∧
    (execute_workflow oTriageLow "patient_triage" (.vObj [])).1 =
      .vObj [("workflow", .vStr "patient_triage"),
             ("steps", .vList
                [stepEntry "triage" "symptom_analysis" (.vObj [("severity", .vStr "low")])]),
             ("triage", .vObj [("severity", .vStr "low")])] :=
  ⟨C2_skip_marker_only_for_alert.1 emptyOrchestrator (.vObj []) rfl,
   C2_skip_marker_only_for_alert.2.1 emptyOrchestrator (.vObj []) rfl,
   C2_skip_marker_only_for_alert.2.2.1 emptyOrchestrator (.vObj []) rfl,
   C2_skip_marker_only_for_alert.2.2.2.1 emptyOrchestrator (.vObj []) rfl,
   C2_skip_marker_only_for_alert.2.2.2.2.1 oTriageCritical (.vObj [])
     (okAgent (.vObj [("severity", .vStr "critical")]))
     [("severity", .vStr "critical")] (.vStr "critical")
     rfl rfl rfl (.inr rfl) rfl,
   C2_skip_marker_only_for_alert.2.2.2.2.2 oTriageLow (.vObj [])
     (okAgent (.vObj [("severity", .vStr "low")]))
     [("severity", .vStr "low")] (.vStr "low")
     rfl rfl rfl (by simp) (by simp) rfl⟩

/-- Counterexample to C2 as stated: with no agents registered, the first
step of `patient_triage` (whose guard is trivially true) has an unregistered
capability, yet the returned `steps` list is empty — no entry with reason
`agent_not_registered` is appended for it; likewise for `nutrition_plan`. -/
theorem C2_counterexample :
    (execute_workflow emptyOrchestrator "patient_triage" (.vObj [])).1 =
      .vObj [("workflow", .vStr "patient_triage"), ("steps", .vList [])] ∧
    (execute_workflow emptyOrchestrator "nutrition_plan" (.vObj [])).1 =
      .vObj [("workflow", .vStr "nutrition_plan"), ("steps", .vList [])] :=
  ⟨rfl, rfl⟩

/-- C5: in `patient_triage` with triage and communication agents registered
and the triage result carrying a `severity` key: when severity is `high` or
`critical`, the `steps` list has exactly two entries, the second being the
communication `send_alert` step; when severity is any other value, the
`steps` list is exactly the single triage entry — the guard suppresses step
2 entirely and no skipped marker appears. -/
theorem C5_alert_guard (o : AgentOrchestrator) (d : Value) (a c : AgentInstance)
    (kvs dkvs : List (String × Value)) (sev ar : Value)
    (hT : lookupK o.agents AgentType.TRIAGE = some a)
    (hA : a.analyze d = .ok (.vObj kvs))
    (hS : lookupK kvs "severity" = some sev)
    (hC : lookupK o.agents AgentType.COMMUNICATION = some c)
    (hD : d = .vObj dkvs)
    (hAl : c.send_alert ((lookupK dkvs "patient_id").getD .vNull) sev = .ok ar) :
    (sev = .vStr "high" ∨ sev = .vStr "critical" →
      (execute_workflow o "patient_triage" d).1 =
        .vObj [("workflow", .vStr "patient_triage"),
               ("steps", .vList [stepEntry "triage" "symptom_analysis" (.vObj kvs),
                                 stepEntry "communication" "send_alert" ar]),
               ("triage", .vObj kvs)]) ∧
    (sev ≠ .vStr "high" → sev ≠ .vStr "critical" →
      (execute_workflow o "patient_triage" d).1 =
        .vObj [("workflow", .vStr "patient_triage"),
               ("steps", .vList [stepEntry "triage" "symptom_analysis" (.vObj kvs)]),
               ("triage", .vObj kvs)]) := by
  constructor
  · intro hsev
    subst hD
    unfold execute_workflow
    rcases hsev with h | h <;> subst h <;>
      simp [dispatch, triage_workflow, triage_step2, hT, hA, hC, hS, hAl,
            appendStep, updK, lookupK, pyGet, pyIndex, Value.isStr, Except.map]
  · intro hne1 hne2
    unfold execute_workflow
    simp [dispatch, triage_workflow, triage_step2, hT, hA, hS,
          isStr_eq_false hne1, isStr_eq_false hne2,
          appendStep, updK, lookupK, pyGet, Except.map]

/-- An orchestrator with a critical-severity triage agent and a
communication agent. -/
def oTriageCriticalComm : AgentOrchestrator :=
  register_agent oTriageCritical AgentType.COMMUNICATION (okAgent .vNull)

/-- An orchestrator with a low-severity triage agent and a communication
agent. -/
def oTriageLowComm : AgentOrchestrator :=
  register_agent (register_agent emptyOrchestrator AgentType.TRIAGE
      (okAgent (.vObj [("severity", .vStr "low")])))
    AgentType.COMMUNICATION (okAgent .vNull)

/-- Witness for C5 at concrete severities `critical` and `low`. -/
theorem C5_alert_guard_witness :
    (execute_workflow oTriageCriticalComm "patient_triage"
        (.vObj [("patient_id", .vInt 7)])).1 =
      .vObj [("workflow", .vStr "patient_triage"),
             ("steps", .vList
                [stepEntry "triage" "symptom_analysis" (.vObj [("severity", .vStr "critical")]),
                 stepEntry "communication" "send_alert" (.vStr "sent")]),
             ("triage", .vObj [("severity", .vStr "critical")])] ∧
    (execute_workflow oTriageLowComm "patient_triage"
        (.vObj [("patient_id", .vInt 7)])).1 =
      .vObj [("workflow", .vStr "patient_triage"),
             ("steps", .vList
                [stepEntry "triage" "symptom_analysis" (.vObj [("severity", .vStr "low")])]),
             ("triage", .vObj [("severity", .vStr "low")])] :=
  ⟨(C5_alert_guard oTriageCriticalComm (.vObj [("patient_id", .vInt 7)])
      (okAgent (.vObj [("severity", .vStr "critical")])) (okAgent .vNull)
      [("severity", .vStr "critical")] [("patient_id", .vInt 7)]
      (.vStr "critical") (.vStr "sent")
      rfl rfl rfl rfl rfl rfl).1 (.inr rfl),
   (C5_alert_guard oTriageLowComm (.vObj [("patient_id", .vInt 7)])
      (okAgent (.vObj [("severity", .vStr "low")])) (okAgent .vNull)
      [("severity", .vStr "low")] [("patient_id", .vInt 7)]
      (.vStr "low") (.vStr "sent")
      rfl rfl rfl rfl rfl rfl).2 (by simp) (by simp)⟩

/-- C6: in `surge_prediction` with sentinel and logistics agents registered,
the logistics `prepare_supplies` step runs if and only if the prediction's
`likelihood` is strictly greater than 70: at exactly 70 the `steps` list
holds only the prediction entry, at 71 it also holds the logistics entry. -/
theorem C6_surge_threshold (o : AgentOrchestrator) (d : Value) (s lg : AgentInstance)
    (pk pk' : List (String × Value)) (lr : Value)
    (hSen : lookupK o.agents AgentType.SENTINEL = some s)
    (hLog : lookupK o.agents AgentType.LOGISTICS = some lg) :
    (s.predict_surge d = .ok (.vObj pk) →
     lookupK pk "likelihood" = some (.vInt 70) →
     execute_workflow o "surge_prediction" d =
       (.vObj [("workflow", .vStr "surge_prediction"),
               ("steps", .vList [stepEntry "sentinel" "predict_surge" (.vObj pk)]),
               ("prediction", .vObj pk)],
        [⟨AgentType.SENTINEL, "predict_surge"⟩], o)) ∧
    (s.predict_surge d = .ok (.vObj pk') →
     lookupK pk' "likelihood" = some (.vInt 71) →
     lg.prepare_supplies ((lookupK pk' "predicted_cases").getD (.vInt 0)) = .ok lr →
     execute_workflow o "surge_prediction" d =
       (.vObj [("workflow", .vStr "surge_prediction"),
               ("steps", .vList [stepEntry "sentinel" "predict_surge" (.vObj pk'),
                                 stepEntry "logistics" "prepare_supplies" lr]),
               ("prediction", .vObj pk')],
        [⟨AgentType.SENTINEL, "predict_surge"⟩, ⟨AgentType.LOGISTICS, "prepare_supplies"⟩],
        o)) := by
  constructor
  · intro hP hL
    unfold execute_workflow
    simp [dispatch, surge_workflow, surge_step2, hSen, hP, hL,
          appendStep, updK, lookupK, pyGet, pyGt, Except.map]
  · intro hP hL hPr
    unfold execute_workflow
    simp [dispatch, surge_workflow, surge_step2, hSen, hLog, hP, hL, hPr,
          appendStep, updK, lookupK, pyGet, pyIndex, pyGt, Except.map]

/-- An orchestrator with a sentinel agent predicting likelihood 70 and a
logistics agent. -/
def oSurge70 : AgentOrchestrator :=
  register_agent (register_agent emptyOrchestrator AgentType.SENTINEL
      (okAgent (.vObj [("likelihood", .vInt 70), ("predicted_cases", .vInt 40)])))
    AgentType.LOGISTICS (okAgent .vNull)

/-- An orchestrator with a sentinel agent predicting likelihood 71 and a
logistics agent. -/
def oSurge71 : AgentOrchestrator :=
  register_agent (register_agent emptyOrchestrator AgentType.SENTINEL
      (okAgent (.vObj [("likelihood", .vInt 71), ("predicted_cases", .vInt 40)])))
    AgentType.LOGISTICS (okAgent .vNull)

/-- Witness for C6 at concrete likelihoods 70 and 71. -/
theorem C6_surge_threshold_witness :
    execute_workflow oSurge70 "surge_prediction" (.vObj []) =
      (.vObj [("workflow", .vStr "surge_prediction"),
              ("steps", .vList [stepEntry "sentinel" "predict_surge"
                 (.vObj [("likelihood", .vInt 70), ("predicted_cases", .vInt 40)])]),
              ("prediction", .vObj [("likelihood", .vInt 70), ("predicted_cases", .vInt 40)])],
       [⟨AgentType.SENTINEL, "predict_surge"⟩], oSurge70) ∧
    execute_workflow oSurge71 "surge_prediction" (.vObj []) =
      (.vObj [("workflow", .vStr "surge_prediction"),
              ("steps", .vList [stepEntry "sentinel" "predict_surge"
                 (.vObj [("likelihood", .vInt 71), ("predicted_cases", .vInt 40)]),
                 stepEntry "logistics" "prepare_supplies" (.vStr "prepared")]),
              ("prediction", .vObj [("likelihood", .vInt 71), ("predicted_cases", .vInt 40)])],
       [⟨AgentType.SENTINEL, "predict_surge"⟩, ⟨AgentType.LOGISTICS, "prepare_supplies"⟩],
       oSurge71) :=
  ⟨(C6_surge_threshold oSurge70 (.vObj [])
      (okAgent (.vObj [("likelihood", .vInt 70), ("predicted_cases", .vInt 40)]))
      (okAgent .vNull)
      [("likelihood", .vInt 70), ("predicted_cases", .vInt 40)]
      [("likelihood", .vInt 70), ("predicted_cases", .vInt 40)]
      (.vStr "prepared") rfl rfl).1 rfl rfl,
   (C6_surge_threshold oSurge71 (.vObj [])
      (okAgent (.vObj [("likelihood", .vInt 71), ("predicted_cases", .vInt 40)]))
      (okAgent .vNull)
      [("likelihood", .vInt 71), ("predicted_cases", .vInt 40)]
      [("likelihood", .vInt 71), ("predicted_cases", .vInt 40)]
      (.vStr "prepared") rfl rfl).2 rfl rfl rfl⟩

/-- C9: in `nutrition_plan` with a nutrition agent registered whose operation
returns `r`, the result's `steps` list is exactly the single entry
`{agent: 'nutrition', action: 'generate_meal_plan', result: r}` and the
top-level `meal_plan` field equals that same `r`. -/
theorem C9_nutrition_named_output (o : AgentOrchestrator) (d : Value)
    (a : AgentInstance) (r : Value)
    (hN : lookupK o.agents AgentType.NUTRITION = some a)
    (hG : a.generate_plan d = .ok r) :
    (execute_workflow o "nutrition_plan" d).1 =
      .vObj [("workflow", .vStr "nutrition_plan"),
             ("steps", .vList [stepEntry "nutrition" "generate_meal_plan" r]),
             ("meal_plan", r)] ∧
    pyIndex (execute_workflow o "nutrition_plan" d).1 "meal_plan" = .ok r := by
  have h : (execute_workflow o "nutrition_plan" d).1 =
      .vObj [("workflow", .vStr "nutrition_plan"),
             ("steps", .vList [stepEntry "nutrition" "generate_meal_plan" r]),
             ("meal_plan", r)] := by
    unfold execute_workflow
    simp [dispatch, nutrition_workflow, hN, hG, appendStep, updK, lookupK]
  refine ⟨h, ?_⟩
  rw [h]
  simp [pyIndex, lookupK]

/-- An orchestrator with a nutrition agent echoing a fixed meal plan. -/
def oNutrition : AgentOrchestrator :=
  register_agent emptyOrchestrator AgentType.NUTRITION
    (okAgent (.vObj [("plan", .vStr "dal-rice")]))

/-- Witness for C9 at a concrete nutrition agent. -/
theorem C9_nutrition_named_output_witness :
    (execute_workflow oNutrition "nutrition_plan" (.vObj [])).1 =
      .vObj [("workflow", .vStr "nutrition_plan"),
             ("steps", .vList [stepEntry "nutrition" "generate_meal_plan"
                (.vObj [("plan", .vStr "dal-rice")])]),
             ("meal_plan", .vObj [("plan", .vStr "dal-rice")])] ∧
    pyIndex (execute_workflow oNutrition "nutrition_plan" (.vObj [])).1 "meal_plan" =
      .ok (.vObj [("plan", .vStr "dal-rice")]) :=
  C9_nutrition_named_output oNutrition (.vObj [])
    (okAgent (.vObj [("plan", .vStr "dal-rice")]))
    (.vObj [("plan", .vStr "dal-rice")]) rfl rfl

/-- C10: in `surge_prediction`, when the sentinel agent is unregistered, or
its prediction lacks a `likelihood` key, or the likelihood is an int not
greater than 70, the guard falls back to the default 0 (or compares a value
at most 70), the logistics step never executes — no logistics invocation
appears in the call trace — and nothing raises: the call returns a success
result. -/
theorem C10_surge_guard_defaults (o : AgentOrchestrator) (d : Value) :
    (lookupK o.agents AgentType.SENTINEL = none →
      execute_workflow o "surge_prediction" d =
        (.vObj [("workflow", .vStr "surge_prediction"), ("steps", .vList [])], [], o)) ∧
    (∀ (s : AgentInstance) (pk : List (String × Value)),
      lookupK o.agents AgentType.SENTINEL = some s →
      s.predict_surge d = .ok (.vObj pk) →
      lookupK pk "likelihood" = none →
      execute_workflow o "surge_prediction" d =
        (.vObj [("workflow", .vStr "surge_prediction"),
                ("steps", .vList [stepEntry "sentinel" "predict_surge" (.vObj pk)]),
                ("prediction", .vObj pk)],
         [⟨AgentType.SENTINEL, "predict_surge"⟩], o)) ∧
    (∀ (s : AgentInstance) (pk : List (String × Value)) (n : Int),
      lookupK o.agents AgentType.SENTINEL = some s →
      s.predict_surge d = .ok (.vObj pk) →
      lookupK pk "likelihood" = some (.vInt n) →
      n ≤ 70 →
      execute_workflow o "surge_prediction" d =
        (.vObj [("workflow", .vStr "surge_prediction"),
                ("steps", .vList [stepEntry "sentinel" "predict_surge" (.vObj pk)]),
                ("prediction", .vObj pk)],
         [⟨AgentType.SENTINEL, "predict_surge"⟩], o)) := by
  refine ⟨?_, ?_, ?_⟩
  · intro hSen
    unfold execute_workflow
    simp [dispatch, surge_workflow, surge_step2, hSen, lookupK, pyGet, pyGt, Except.map]
  · intro s pk hSen hP hL
    unfold execute_workflow
    simp [dispatch, surge_workflow, surge_step2, hSen, hP, hL,
          appendStep, updK, lookupK, pyGet, pyGt, Except.map]
  · intro s pk n hSen hP hL hn
    unfold execute_workflow
    simp [dispatch, surge_workflow, surge_step2, hSen, hP, hL,
          appendStep, updK, lookupK, pyGet, pyGt, Except.map, hn, Int.not_lt.mpr hn]

/-- An orchestrator whose sentinel agent's prediction has no likelihood key. -/
def oSurgeNoLikelihood : AgentOrchestrator :=
  register_agent emptyOrchestrator AgentType.SENTINEL
    (okAgent (.vObj [("region", .vStr "north")]))

/-- Witness for C10: unregistered sentinel, missing likelihood key, and
likelihood 70 (not greater than 70). -/
theorem C10_surge_guard_defaults_witness :
    execute_workflow emptyOrchestrator "surge_prediction" (.vObj []) =
      (.vObj [("workflow", .vStr "surge_prediction"), ("steps", .vList [])], [],
       emptyOrchestrator) ∧
    execute_workflow oSurgeNoLikelihood "surge_prediction" (.vObj []) =
      (.vObj [("workflow", .vStr "surge_prediction"),
              ("steps", .vList [stepEntry "sentinel" "predict_surge"
                 (.vObj [("region", .vStr "north")])]),
              ("prediction", .vObj [("region", .vStr "north")])],
       [⟨AgentType.SENTINEL, "predict_surge"⟩], oSurgeNoLikelihood) ∧
    execute_workflow oSurge70 "surge_prediction" (.vObj []) =
      (.vObj [("workflow", .vStr "surge_prediction"),
              ("steps", .vList [stepEntry "sentinel" "predict_surge"
                 (.vObj [("likelihood", .vInt 70), ("predicted_cases", .vInt 40)])]),
              ("prediction", .vObj [("likelihood", .vInt 70), ("predicted_cases", .vInt 40)])],
       [⟨AgentType.SENTINEL, "predict_surge"⟩], oSurge70) :=
  ⟨(C10_surge_guard_defaults emptyOrchestrator (.vObj [])).1 rfl,
   (C10_surge_guard_defaults oSurgeNoLikelihood (.vObj [])).2.1
     (okAgent (.vObj [("region", .vStr "north")])) [("region", .vStr "north")] rfl rfl rfl,
   (C10_surge_guard_defaults oSurge70 (.vObj [])).2.2
     (okAgent (.vObj [("likelihood", .vInt 70), ("predicted_cases", .vInt 40)]))
     [("likelihood", .vInt 70), ("predicted_cases", .vInt 40)] 70
     rfl rfl rfl (by decide)⟩

/-- C7: registering the same capability twice (with at most one pre-existing
binding for it, the invariant every orchestrator built through
`register_agent` satisfies) leaves exactly one mapping for the tag — the
second handle — and the status record is reset to the initial idle state;
`register_agent` is total and always succeeds. -/
theorem C7_reregistration_overwrites (o : AgentOrchestrator) (t : AgentType)
    (a1 a2 : AgentInstance)
    (h1 : keyCount o.agents t ≤ 1) (h2 : keyCount o.agent_states t ≤ 1) :
    lookupK (register_agent (register_agent o t a1) t a2).agents t = some a2 ∧
    keyCount (register_agent (register_agent o t a1) t a2).agents t = 1 ∧
    keyCount (register_agent (register_agent o t a1) t a2).agent_states t = 1 ∧
    get_agent_status (register_agent (register_agent o t a1) t a2) t = initial_state := by
  refine ⟨?_, ?_, ?_, ?_⟩
  · simp [register_agent, lookupK_updK]
  · simp only [register_agent, keyCount_updK]
    omega
  · simp only [register_agent, keyCount_updK]
    omega
  · simp [get_agent_status, register_agent, lookupK_updK]

/-- Witness for C7: two different handles registered under `NUTRITION`. -/
theorem C7_reregistration_overwrites_witness :
    lookupK (register_agent (register_agent emptyOrchestrator AgentType.NUTRITION
        (okAgent .vNull)) AgentType.NUTRITION (raisingAgent "x")).agents
      AgentType.NUTRITION = some (raisingAgent "x") ∧
    keyCount (register_agent (register_agent emptyOrchestrator AgentType.NUTRITION
        (okAgent .vNull)) AgentType.NUTRITION (raisingAgent "x")).agents
      AgentType.NUTRITION = 1 ∧
    keyCount (register_agent (register_agent emptyOrchestrator AgentType.NUTRITION
        (okAgent .vNull)) AgentType.NUTRITION (raisingAgent "x")).agent_states
      AgentType.NUTRITION = 1 ∧
    get_agent_status (register_agent (register_agent emptyOrchestrator AgentType.NUTRITION
        (okAgent .vNull)) AgentType.NUTRITION (raisingAgent "x")) AgentType.NUTRITION =
      initial_state :=
  C7_reregistration_overwrites emptyOrchestrator AgentType.NUTRITION
    (okAgent .vNull) (raisingAgent "x") (by decide) (by decide)
